import Mathlib

/-!
Verification of the calculator/optimizer subsystem and EA generation loop of
the `stk` repository (files `src/stk/calculators/optimization/optimizers.py`
and `src/stk/ea_class.py`), against its natural-language specification.

Molecules are modelled by their identity keys (`Nat`); external collaborators
(rdkit, pywindow, the xTB executable, selectors, crossers, mutators) are
modelled as opaque function parameters.  File-system and working-directory
effects are modelled by explicit state passing.
-/

/- ================================================================
   Section 1: calculator cache layer.
   ================================================================ -/

/-- State of one calculator instance: its `use_cache` flag and its private
cache of already-processed molecule identity keys. -/
structure CalculatorState where
  use_cache : Bool
  cache : List Nat
  deriving DecidableEq

/-- Modelled from the spec: `_MoleculeCalculator._cache_result` lives in
`base_calculators`, which is not part of the sources; per spec section 4.1,
`process(mol)`: if caching is enabled and the molecule identity is already in
this instance's cache the operation is skipped entirely; otherwise the real
operation is performed and — only on success (`opOk`) and with caching
enabled — the identity is recorded.  Returns the new state and whether the
real operation ran. -/
def cache_result (opOk : Bool) (st : CalculatorState) (m : Nat) :
    CalculatorState × Bool :=
  if st.use_cache && st.cache.contains m then
    (st, false)
  else if opOk then
    (⟨st.use_cache, if st.use_cache then m :: st.cache else st.cache⟩, true)
  else
    (st, true)

/-- `n` successive `optimize` calls on the same calculator instance and the
same molecule; returns the final state and how many times the real operation
ran. -/
def optimize_calls (opOk : Bool) (st : CalculatorState) (m : Nat) :
    Nat → CalculatorState × Nat
  | 0 => (st, 0)
  | n + 1 =>
      let step := cache_result opOk st m
      let rest := optimize_calls opOk step.1 m n
      (rest.1, (if step.2 then 1 else 0) + rest.2)

/- ================================================================
   Section 2: the XTB external-process optimizer adapter.
   ================================================================ -/

/-- The error hierarchy of the adapter: `XTBConvergenceError` is raised when
the `NOT_CONVERGED` marker is present, `XTBOptimizerError` when neither
marker is present. -/
inductive XTBError where
  | convergence
  | optimizer
  deriving DecidableEq

/-- What the external xTB executable leaves in the working directory after
one attempt: the presence of the `.xtboptok` converged marker, the
`NOT_CONVERGED` marker, the `xtbhess.coord` restart-geometry file, and the
vibrational frequencies parsed from the attempt's output file. -/
structure XTBRunEnv where
  xtboptok : Bool
  not_converged : Bool
  coord_exists : Bool
  frequencies : List Int
  deriving DecidableEq

/-- `XTB._has_neg_frequencies`: true when some frequency beyond the first
six is negative (the first six frequencies are discarded). -/
def has_neg_frequencies (freqs : List Int) : Bool :=
  (freqs.drop 6).any (fun x => decide (x < 0))

/-- `XTB._is_complete`: `None` output file means no simulation ran; if the
`.xtboptok` marker exists the attempt converged (additionally requiring no
negative frequency beyond the first six when the hessian was calculated);
else the `NOT_CONVERGED` marker raises `XTBConvergenceError`, and the absence
of both markers raises `XTBOptimizerError`. -/
def is_complete (calculate_hessian : Bool) (output_file : Option String)
    (e : XTBRunEnv) : Except XTBError Bool :=
  match output_file with
  | none => .ok false
  | some _ =>
      if e.xtboptok then
        if calculate_hessian then
          .ok (!has_neg_frequencies e.frequencies)
        else
          .ok true
      else if e.not_converged then
        .error .convergence
      else
        .error .optimizer

/-- The output file name of attempt `run` (0-based), as built in
`XTB._run_optimizations`. -/
def outFileName (run : Nat) : String :=
  "optimization_" ++ toString (run + 1) ++ ".output"

/-- The provenance of the molecule's current geometry: either untouched, or
last updated from the named file written during the given (1-based)
attempt. -/
inductive Geom where
  | initial
  | fromFile (attempt : Nat) (file : String)
  deriving DecidableEq

/-- The mutable state threaded through an `XTB.optimize` call: the molecule's
geometry provenance, whether the molecule is in the adapter's `incomplete`
set, how many xTB invocations have been made, and how many warnings were
logged. -/
structure XTBState where
  geom : Geom
  incomplete : Bool
  attempts : Nat
  warnings : Nat
  deriving DecidableEq

/-- `XTB._run_optimizations`, starting at attempt index `run` with
`remaining` attempts left.  Each iteration writes the input, invokes xTB
(both folded into incrementing `attempts`), and checks completeness: a raised
error propagates; on failure with a restart file the molecule is updated from
`xtbhess.coord` and the loop continues; on failure without a restart file the
molecule is updated from `xtbopt.xyz`, added to the incomplete set, a warning
is logged and the loop returns `false` early; on success the molecule is
updated from `xtbopt.xyz` and the loop breaks returning `true`.  Exhausting
the loop returns the last attempt's (false) completeness. -/
def run_optimizations_from (ch : Bool) (envs : Nat → XTBRunEnv) :
    Nat → Nat → XTBState → Except XTBError Bool × XTBState
  | _, 0, st => (.ok false, st)
  | run, remaining + 1, st =>
      let e := envs run
      let st1 : XTBState := { st with attempts := st.attempts + 1 }
      match is_complete ch (some (outFileName run)) e with
      | .error err => (.error err, st1)
      | .ok false =>
          if e.coord_exists then
            run_optimizations_from ch envs (run + 1) remaining
              { st1 with geom := .fromFile (run + 1) "xtbhess.coord" }
          else
            (.ok false,
              { st1 with
                geom := .fromFile (run + 1) "xtbopt.xyz"
                incomplete := true
                warnings := st1.warnings + 1 })
      | .ok true =>
          (.ok true, { st1 with geom := .fromFile (run + 1) "xtbopt.xyz" })

/-- `XTB._run_optimizations(mol)`: the retry loop over `max_runs` attempts. -/
def run_optimizations (ch : Bool) (envs : Nat → XTBRunEnv) (max_runs : Nat)
    (st : XTBState) : Except XTBError Bool × XTBState :=
  run_optimizations_from ch envs 0 max_runs st

instance {ε α : Type} [DecidableEq ε] [DecidableEq α] :
    DecidableEq (Except ε α) := fun a b =>
  match a, b with
  | .error e, .error f =>
      if h : e = f then isTrue (by rw [h])
      else isFalse (fun hh => by cases hh; exact h rfl)
  | .ok x, .ok y =>
      if h : x = y then isTrue (by rw [h])
      else isFalse (fun hh => by cases hh; exact h rfl)
  | .error _, .ok _ => isFalse (fun hh => by cases hh)
  | .ok _, .error _ => isFalse (fun hh => by cases hh)

/-- The observable outcome of one `XTB._optimize` call: the returned value or
propagated error, the final molecule/adapter state, the working directory
after the call, and the working directory in effect while the retry loop
ran. -/
structure XTBOptResult where
  outcome : Except XTBError Bool
  st : XTBState
  finalCwd : String
  runCwd : String
  deriving DecidableEq

/-- `XTB._optimize(mol)`: removes the molecule from the incomplete set,
creates the per-call output directory, records the current directory, changes
into the output directory, runs the retry loop inside `try`, restores the
prior directory in `finally` (on the normal and the exceptional path alike),
and — when the loop reports incompleteness — re-adds the molecule to the
incomplete set and logs a warning.  Incompleteness does not raise. -/
def xtb_optimize (ch : Bool) (envs : Nat → XTBRunEnv) (max_runs : Nat)
    (initCwd outputDir : String) (st0 : XTBState) : XTBOptResult :=
  let st1 : XTBState := { st0 with incomplete := false }
  let runRes := run_optimizations ch envs max_runs st1
  match runRes.1 with
  | .error e => ⟨.error e, runRes.2, initCwd, outputDir⟩
  | .ok true => ⟨.ok true, runRes.2, initCwd, outputDir⟩
  | .ok false =>
      ⟨.ok false,
        { runRes.2 with
          incomplete := true
          warnings := runRes.2.warnings + 1 },
        initCwd, outputDir⟩

/-- Configuration kept by `XTB.__init__` that the claims depend on. -/
structure XTBConfig where
  max_runs : Nat
  calculate_hessian : Bool
  deriving DecidableEq

/-- `XTB.__init__`: validates the solvent against the GFN version (gfn 0
accepts no solvent; otherwise the version-specific whitelist `validSolvent`
decides, after lowercasing), then — when the hessian calculation is disabled
and more than one run was requested — coerces `max_runs` to 1 with a warning
rather than an error.  Returns the stored configuration and the number of
warnings logged. -/
def xtb_init (gfn_version : Nat) (solvent : Option String)
    (validSolvent : Nat → String → Bool) (max_runs : Nat)
    (calculate_hessian : Bool) : Except Unit (XTBConfig × Nat) :=
  match solvent with
  | some s =>
      if gfn_version = 0 then
        .error ()
      else if !validSolvent gfn_version s.toLower then
        .error ()
      else if !calculate_hessian && max_runs ≠ 1 then
        .ok (⟨1, calculate_hessian⟩, 1)
      else
        .ok (⟨max_runs, calculate_hessian⟩, 0)
  | none =>
      if !calculate_hessian && max_runs ≠ 1 then
        .ok (⟨1, calculate_hessian⟩, 1)
      else
        .ok (⟨max_runs, calculate_hessian⟩, 0)

/- ================================================================
   Section 3: CageOptimizerSequence.
   ================================================================ -/

/-- The condition under which `CageOptimizerSequence._optimize` proceeds to
the next child optimizer: the pywindow collaborator (`windows`, an opaque
function from molecule state to the detected window count, `none` when
detection fails) found a window list whose length equals the expected
count. -/
def windowCheck (expected : Nat) (windows : Nat → Option Nat) (mol : Nat) :
    Bool :=
  match windows mol with
  | none => false
  | some n => n == expected

/-- `CageOptimizerSequence._optimize`: before each child optimizer the window
check runs on the current molecule; on failure the remaining sequence is
abandoned, otherwise the child optimizer (an opaque molecule transformer)
runs and the sequence continues.  Returns the final molecule state and the
0-based indices of the children that executed, `idx` being the index of the
first child in `opts`. -/
def cage_optimizer_steps (expected : Nat) (windows : Nat → Option Nat)
    (mol : Nat) (idx : Nat) : List (Nat → Nat) → Nat × List Nat
  | [] => (mol, [])
  | opt :: rest =>
      match windows mol with
      | none => (mol, [])
      | some n =>
          if n ≠ expected then
            (mol, [])
          else
            let r := cage_optimizer_steps expected windows (opt mol)
              (idx + 1) rest
            (r.1, idx :: r.2)

/-- `CageOptimizerSequence.optimize(mol)` (ignoring the per-instance cache):
runs the sequence from the first child. -/
def cage_optimizer_sequence (expected : Nat) (windows : Nat → Option Nat)
    (opts : List (Nat → Nat)) (mol : Nat) : Nat × List Nat :=
  cage_optimizer_steps expected windows mol 0 opts

/-- The molecule state after the first `k` children of `opts` have run in
listed order. -/
def applyUpTo (opts : List (Nat → Nat)) (k : Nat) (mol : Nat) : Nat :=
  (opts.take k).foldl (fun m f => f m) mol

/- ================================================================
   Section 4: the EA driver (`ea_class.py`).
   ================================================================ -/

/-- The attributes of a loaded input file that `init_from_file` reads.  The
four `use_cache` fields are the caching flags the input file configured on
the optimizer, fitness calculator, crosser and mutator; the `Option` fields
are attributes the input file may omit. -/
structure InputFile where
  optimizer_use_cache : Bool
  fitness_use_cache : Bool
  crosser_use_cache : Bool
  mutator_use_cache : Bool
  log_file : Option Bool
  database_dump : Option Bool
  progress_dump : Option Bool
  debug_dumps : Option Bool
  generation_dumps : Option Bool
  tar_output : Option Bool

/-- The configuration state of the `EvolutionaryAlgorithm` instance after
`init_from_file` returns. -/
structure EAConfig where
  optimizer_use_cache : Bool
  fitness_use_cache : Bool
  crosser_use_cache : Bool
  mutator_use_cache : Bool
  progress_dump_filename : String
  database_dump_filename : String
  log_file : Bool
  database_dump : Bool
  progress_dump : Bool
  debug_dumps : Bool
  generation_dumps : Bool
  tar_output : Bool

/-- `os.path.join` on three relative components. -/
def pathJoin3 (a b c : String) : String :=
  a ++ "/" ++ b ++ "/" ++ c

/-- `EvolutionaryAlgorithm.init_from_file`: copies the calculators from the
input file, assigns both dump filenames with
`join('..', 'pop_dumps', 'progress.json')`, fills the optional attributes
with their defaults, and finally calls `set_cache_use(True)` on the
optimizer, the fitness calculator, the crosser and the mutator. -/
def init_from_file (f : InputFile) : EAConfig :=
  let cfg : EAConfig :=
    { optimizer_use_cache := f.optimizer_use_cache
      fitness_use_cache := f.fitness_use_cache
      crosser_use_cache := f.crosser_use_cache
      mutator_use_cache := f.mutator_use_cache
      progress_dump_filename := pathJoin3 ".." "pop_dumps" "progress.json"
      database_dump_filename := pathJoin3 ".." "pop_dumps" "progress.json"
      log_file := f.log_file.getD true
      database_dump := f.database_dump.getD true
      progress_dump := f.progress_dump.getD true
      debug_dumps := f.debug_dumps.getD false
      generation_dumps := f.generation_dumps.getD true
      tar_output := f.tar_output.getD false }
  { cfg with
    optimizer_use_cache := true
    fitness_use_cache := true
    crosser_use_cache := true
    mutator_use_cache := true }

/-- The content of a population dump file written during generation `gen`:
either the per-generation progress dump or the cumulative database dump. -/
inductive DumpContent where
  | progressDump (gen : Nat)
  | databaseDump (gen : Nat)
  deriving DecidableEq

/-- The `debug_dumps` branch at the end of a `run_ea` generation:
`progress.dump(self.progress_dump_filename)` followed by
`history.db_pop.dump(self.database_dump_filename)`, modelled against a file
system mapping paths to contents (a later write to the same path overwrites
an earlier one). -/
def debug_dumps_step (cfg : EAConfig) (gen : Nat)
    (fs : String → Option DumpContent) : String → Option DumpContent :=
  if cfg.debug_dumps then
    let fs1 := fun p =>
      if p = cfg.progress_dump_filename then some (.progressDump gen)
      else fs p
    fun p =>
      if p = cfg.database_dump_filename then some (.databaseDump gen)
      else fs1 p
  else
    fs

/-- The observable state of one `run_ea` call: the working population, the
process working directory, the number of generation snapshots recorded into
`progress`, the number of completed while-loop iterations, the number of
crossover and mutation phases invoked, the number of times the end-of-loop
finalization block ran, and whether the terminator fired. -/
structure EAState where
  pop : List Nat
  cwd : String
  snapshots : Nat
  gensCompleted : Nat
  crossoverCalls : Nat
  mutationCalls : Nat
  finalizations : Nat
  finished : Bool

/-- The pluggable genetic operators of the EA loop, opaque to this
verification: producing offspring, producing mutants, and selecting the next
generation. -/
structure EAOracles where
  cross : List Nat → List Nat
  mutate : List Nat → List Nat
  select : List Nat → List Nat

/-- The `output` directory `run_ea` creates under the launch directory. -/
def eaRootDir (launch : String) : String :=
  launch ++ "/output"

/-- The `output/scratch` directory `run_ea` changes into before the
generation loop. -/
def eaScratchDir (launch : String) : String :=
  launch ++ "/output/scratch"

/-- One iteration of the `while not self.terminator.terminate(progress)`
body of `run_ea`: crossover and mutation produce offspring and mutants,
which are merged into the population; duplicates are removed; the population
is re-optimized and re-scored (external effects); the generation selector
picks the next population; a generation snapshot is appended to `progress`;
and then — because the block sits inside the loop in the source — the
finalization block runs: `os.chdir(root_dir)`, the `errors.log` rename, the
final-population write, `os.chdir(launch_dir)`, optional tarring and output
archiving, leaving the working directory at the launch directory. -/
def ea_generation (launch : String) (g : EAOracles) (st : EAState) :
    EAState :=
  let offspring := g.cross st.pop
  let mutants := g.mutate st.pop
  let merged := (st.pop ++ offspring ++ mutants).dedup
  let nextPop := g.select merged
  { st with
    pop := nextPop
    gensCompleted := st.gensCompleted + 1
    crossoverCalls := st.crossoverCalls + 1
    mutationCalls := st.mutationCalls + 1
    snapshots := st.snapshots + 1
    cwd := launch
    finalizations := st.finalizations + 1 }

/-- The generation loop of `run_ea`, with explicit fuel: when the terminator
(a predicate over the number of recorded generation snapshots) holds, the
loop exits; otherwise one generation body runs and the loop continues. -/
def run_ea_loop (launch : String) (g : EAOracles)
    (terminate : Nat → Bool) : Nat → EAState → EAState
  | 0, st => st
  | fuel + 1, st =>
      if terminate st.snapshots then
        { st with finished := true }
      else
        run_ea_loop launch g terminate fuel (ea_generation launch g st)

/-- `EvolutionaryAlgorithm.run_ea`: sets up the `output` and
`output/scratch` directories and changes into the latter, optimizes and
scores the initial population, records the first generation snapshot, and
then runs the generation loop. -/
def run_ea (launch : String) (g : EAOracles) (terminate : Nat → Bool)
    (pop0 : List Nat) (fuel : Nat) : EAState :=
  let st0 : EAState :=
    { pop := pop0
      cwd := eaScratchDir launch
      snapshots := 1
      gensCompleted := 0
      crossoverCalls := 0
      mutationCalls := 0
      finalizations := 0
      finished := false }
  run_ea_loop launch g terminate fuel st0

/-- Modelled from the tests and spec: `NumGenerations(n).terminate(progress)`
(the terminator class is not part of the sources; its tests show that it
fires exactly when the number of recorded generations reaches `n`). -/
def numGenerations (n : Nat) (generations : Nat) : Bool :=
  decide (n ≤ generations)

/- ================================================================
   Concrete inputs used by witnesses.
   ================================================================ -/

/-- A caching calculator whose cache already holds molecule 5. -/
def calcStEx : CalculatorState := ⟨true, [5]⟩

/-- A caching calculator with an empty cache. -/
def calcStEx2 : CalculatorState := ⟨true, []⟩

/-- An empty file system for the dump model. -/
def fsEmpty : String → Option DumpContent := fun _ => none

/-- An input file that enables `debug_dumps` and disables caching on every
calculator. -/
def inputFileDebug : InputFile :=
  ⟨false, false, false, false, none, none, none, some true, none, none⟩

/-- A two-attempt xTB scenario: both attempts converge per the marker file
but carry a negative seventh frequency; attempt 1 leaves a restart file,
attempt 2 does not. -/
def xtbEnvsEx : Nat → XTBRunEnv := fun i =>
  if i = 0 then ⟨true, false, true, [0, 0, 0, 0, 0, 0, -1]⟩
  else ⟨true, false, false, [0, 0, 0, 0, 0, 0, -1]⟩

/-- A fresh molecule/adapter state for the xTB witnesses. -/
def xtbStateEx : XTBState := ⟨.initial, false, 0, 0⟩

/-- Two concrete child optimizers for the cage-sequence witnesses. -/
def cageOptsEx : List (Nat → Nat) := [fun m => m + 1, fun m => m * 2]

/-- A window oracle that reports 4 windows on the initial geometry and 3
afterwards. -/
def cageWindowsEx : Nat → Option Nat := fun m =>
  if m = 0 then some 4 else some 3

/-- A window oracle that always reports 4 windows. -/
def cageWindowsAll : Nat → Option Nat := fun _ => some 4

/- ================================================================
   Helper lemmas: the cache layer.
   ================================================================ -/

lemma cache_result_hit (st : CalculatorState) (m : Nat)
    (hc : st.use_cache = true) (hm : st.cache.contains m = true) :
    cache_result true st m = (st, false) := by
  have hm' : m ∈ st.cache := by simpa using hm
  simp [cache_result, hc, hm']

lemma optimize_calls_hit (st : CalculatorState) (m : Nat)
    (hc : st.use_cache = true) (hm : st.cache.contains m = true)
    (n : Nat) : optimize_calls true st m n = (st, 0) := by
  induction n with
  | zero => rfl
  | succ k ih =>
      simp [optimize_calls, cache_result_hit st m hc hm, ih]

lemma optimize_calls_at_most_once (st : CalculatorState) (m : Nat)
    (hc : st.use_cache = true) (n : Nat) :
    (optimize_calls true st m n).2 ≤ 1 := by
  cases n with
  | zero => simp [optimize_calls]
  | succ k =>
      by_cases hm : st.cache.contains m = true
      · simp [optimize_calls, cache_result_hit st m hc hm,
          optimize_calls_hit st m hc hm]
      · have hm' : m ∉ st.cache := by simpa using hm
        have hrun : cache_result true st m
            = (⟨st.use_cache, m :: st.cache⟩, true) := by
          simp [cache_result, hm', hc]
        have hmem : (⟨st.use_cache, m :: st.cache⟩ :
            CalculatorState).cache.contains m = true := by
          simp [List.contains_cons]
        simp [optimize_calls, hrun,
          optimize_calls_hit ⟨st.use_cache, m :: st.cache⟩ m hc hmem]

/-- C1: for a calculator instance with caching enabled, once a molecule
identity is in the cache, a call to `optimize` is a pure no-op (no state
change, no real operation), any number of repeated calls stay no-ops, and
from any caching state the real operation runs at most once across repeated
calls. -/
theorem cached_molecule_optimize_noop (st st0 : CalculatorState)
    (m n n0 : Nat) (hc : st.use_cache = true)
    (hm : st.cache.contains m = true) (hc0 : st0.use_cache = true) :
    cache_result true st m = (st, false) ∧
    optimize_calls true st m n = (st, 0) ∧
    (optimize_calls true st0 m n0).2 ≤ 1 :=
  ⟨cache_result_hit st m hc hm, optimize_calls_hit st m hc hm n,
    optimize_calls_at_most_once st0 m hc0 n0⟩

theorem cached_molecule_optimize_noop_witness :
    (calcStEx.use_cache = true ∧ calcStEx.cache.contains 5 = true ∧
      calcStEx2.use_cache = true) ∧
    (cache_result true calcStEx 5 = (calcStEx, false) ∧
      optimize_calls true calcStEx 5 3 = (calcStEx, 0) ∧
      (optimize_calls true calcStEx2 5 4).2 ≤ 1) :=
  ⟨⟨by decide, by decide, by decide⟩,
    cached_molecule_optimize_noop calcStEx calcStEx2 5 3 4
      (by decide) (by decide) (by decide)⟩

/- ================================================================
   Helper lemmas: frequencies.
   ================================================================ -/

lemma not_any_neg_eq_all_nonneg (l : List Int) :
    (!(l.any (fun x => decide (x < 0))))
      = l.all (fun x => decide (0 ≤ x)) := by
  induction l with
  | nil => rfl
  | cons a t ih =>
      simp only [List.any_cons, List.all_cons, Bool.not_or, ih]
      congr 1
      rcases lt_or_le a 0 with h | h
      · simp [h, not_le.mpr h]
      · simp [h, not_lt.mpr h]

/-- C3: the per-attempt completeness check: with the `.xtboptok` marker
present and hessian calculation requested, the attempt converged exactly
when every frequency beyond the first six is nonnegative; with the
`NOT_CONVERGED` marker present instead, `XTBConvergenceError` is raised; with
neither marker present, `XTBOptimizerError` is raised. -/
theorem is_complete_marker_protocol (ch : Bool) (f : String)
    (e : XTBRunEnv) :
    is_complete ch (some f) e =
      if e.xtboptok then
        (if ch then
          .ok ((e.frequencies.drop 6).all (fun x => decide (0 ≤ x)))
        else .ok true)
      else if e.not_converged then .error .convergence
      else .error .optimizer := by
  simp only [is_complete, has_neg_frequencies, not_any_neg_eq_all_nonneg]

/-- C7: with `calculate_hessian=False` (and no solvent configured),
construction succeeds, the stored `max_runs` is 1, and a warning is logged
exactly when a `max_runs` other than 1 was requested. -/
theorem xtb_init_hessian_disabled (gfn mr : Nat)
    (vs : Nat → String → Bool) :
    xtb_init gfn none vs mr false
      = .ok (⟨1, false⟩, if mr = 1 then 0 else 1) := by
  by_cases h : mr = 1
  · subst h; simp [xtb_init]
  · simp [xtb_init, h]

/-- C9: `init_from_file` always returns with caching enabled on the
optimizer, the fitness calculator, the crosser and the mutator, whatever
caching flags the input file configured. -/
theorem init_from_file_enables_caching (f : InputFile) :
    (init_from_file f).optimizer_use_cache = true ∧
    (init_from_file f).fitness_use_cache = true ∧
    (init_from_file f).crosser_use_cache = true ∧
    (init_from_file f).mutator_use_cache = true :=
  ⟨rfl, rfl, rfl, rfl⟩

/-- C10: `init_from_file` assigns the progress and database dump filenames
the same path `../pop_dumps/progress.json`, so with `debug_dumps` enabled the
cumulative database dump written each generation lands on top of the
per-generation progress dump at that path. -/
theorem debug_dump_overwrites_progress (f : InputFile)
    (fs : String → Option DumpContent) (gen : Nat)
    (hdbg : (init_from_file f).debug_dumps = true) :
    (init_from_file f).progress_dump_filename
        = (init_from_file f).database_dump_filename ∧
    (init_from_file f).progress_dump_filename
        = "../pop_dumps/progress.json" ∧
    debug_dumps_step (init_from_file f) gen fs
        ((init_from_file f).progress_dump_filename)
      = some (.databaseDump gen) := by
  refine ⟨rfl, rfl, ?_⟩
  have hdbg' : f.debug_dumps.getD false = true := by
    simpa [init_from_file] using hdbg
  simp [debug_dumps_step, init_from_file, hdbg']

theorem debug_dump_overwrites_progress_witness :
    (init_from_file inputFileDebug).debug_dumps = true ∧
    ((init_from_file inputFileDebug).progress_dump_filename
        = (init_from_file inputFileDebug).database_dump_filename ∧
      (init_from_file inputFileDebug).progress_dump_filename
        = "../pop_dumps/progress.json" ∧
      debug_dumps_step (init_from_file inputFileDebug) 1 fsEmpty
          ((init_from_file inputFileDebug).progress_dump_filename)
        = some (.databaseDump 1)) :=
  ⟨by decide, debug_dump_overwrites_progress inputFileDebug fsEmpty 1
    (by decide)⟩

/- ================================================================
   Helper lemmas: the cage optimizer sequence.
   ================================================================ -/

lemma applyUpTo_zero (opts : List (Nat → Nat)) (mol : Nat) :
    applyUpTo opts 0 mol = mol := rfl

lemma applyUpTo_cons (o : Nat → Nat) (rest : List (Nat → Nat))
    (k : Nat) (mol : Nat) :
    applyUpTo (o :: rest) (k + 1) mol = applyUpTo rest k (o mol) := by
  simp [applyUpTo, List.take_succ_cons]

lemma windowCheck_true_iff (expected : Nat) (windows : Nat → Option Nat)
    (mol : Nat) :
    windowCheck expected windows mol = true ↔
      windows mol = some expected := by
  unfold windowCheck
  cases hw : windows mol with
  | none => simp
  | some n => simp [beq_iff_eq]

lemma cage_steps_fail (expected : Nat) (windows : Nat → Option Nat) :
    ∀ (opts : List (Nat → Nat)) (mol idx k : Nat),
      k < opts.length →
      (∀ i < k,
        windowCheck expected windows (applyUpTo opts i mol) = true) →
      windowCheck expected windows (applyUpTo opts k mol) = false →
      cage_optimizer_steps expected windows mol idx opts
        = (applyUpTo opts k mol, List.range' idx k)
  | [], _, _, k, hk, _, _ => absurd hk (by simp)
  | o :: rest, mol, idx, 0, _, _, hfail => by
      rw [applyUpTo_zero] at hfail
      unfold windowCheck at hfail
      cases hw : windows mol with
      | none => simp [cage_optimizer_steps, hw, applyUpTo_zero,
          List.range'_zero]
      | some n =>
          rw [hw] at hfail
          have hne : n ≠ expected := by simpa using hfail
          simp [cage_optimizer_steps, hw, hne, applyUpTo_zero,
            List.range'_zero]
  | o :: rest, mol, idx, k + 1, hk, hpass, hfail => by
      have h0 : windows mol = some expected := by
        have := hpass 0 (Nat.succ_pos k)
        rw [applyUpTo_zero] at this
        exact (windowCheck_true_iff expected windows mol).mp this
      have hk' : k < rest.length := Nat.lt_of_succ_lt_succ (by
        simpa using hk)
      have hpass' : ∀ i < k,
          windowCheck expected windows (applyUpTo rest i (o mol))
            = true := by
        intro i hi
        have := hpass (i + 1) (Nat.succ_lt_succ hi)
        rwa [applyUpTo_cons] at this
      have hfail' :
          windowCheck expected windows (applyUpTo rest k (o mol))
            = false := by
        rwa [applyUpTo_cons] at hfail
      have ih := cage_steps_fail expected windows rest (o mol)
        (idx + 1) k hk' hpass' hfail'
      simp [cage_optimizer_steps, h0, ih, applyUpTo_cons,
        List.range'_succ]

lemma cage_steps_pass (expected : Nat) (windows : Nat → Option Nat) :
    ∀ (opts : List (Nat → Nat)) (mol idx : Nat),
      (∀ i < opts.length,
        windowCheck expected windows (applyUpTo opts i mol) = true) →
      cage_optimizer_steps expected windows mol idx opts
        = (applyUpTo opts opts.length mol,
            List.range' idx opts.length)
  | [], mol, idx, _ => by
      simp [cage_optimizer_steps, applyUpTo_zero, List.range'_zero]
  | o :: rest, mol, idx, hpass => by
      have h0 : windows mol = some expected := by
        have := hpass 0 (by simp)
        rw [applyUpTo_zero] at this
        exact (windowCheck_true_iff expected windows mol).mp this
      have hpass' : ∀ i < rest.length,
          windowCheck expected windows (applyUpTo rest i (o mol))
            = true := by
        intro i hi
        have := hpass (i + 1) (by simpa using Nat.succ_lt_succ hi)
        rwa [applyUpTo_cons] at this
      have ih := cage_steps_pass expected windows rest (o mol)
        (idx + 1) hpass'
      simp [cage_optimizer_steps, h0, ih, applyUpTo_cons,
        List.range'_succ]

/-- C5: `CageOptimizerSequence._optimize` runs the window check before each
child optimizer, the first included: if the check fails before child `k`
(detected windows `none` or count different from the expected number), only
children `0..k-1` ran and the molecule reflects only their effects; if every
check passes, every child ran in listed order. -/
theorem cage_sequence_window_gate (expected : Nat)
    (windows : Nat → Option Nat) (opts : List (Nat → Nat))
    (mol k : Nat) :
    (k < opts.length →
      (∀ i < k,
        windowCheck expected windows (applyUpTo opts i mol) = true) →
      windowCheck expected windows (applyUpTo opts k mol) = false →
      cage_optimizer_sequence expected windows opts mol
        = (applyUpTo opts k mol, List.range k)) ∧
    ((∀ i < opts.length,
        windowCheck expected windows (applyUpTo opts i mol) = true) →
      cage_optimizer_sequence expected windows opts mol
        = (applyUpTo opts opts.length mol,
            List.range opts.length)) := by
  constructor
  · intro hk hpass hfail
    rw [cage_optimizer_sequence,
      cage_steps_fail expected windows opts mol 0 k hk hpass hfail,
      List.range_eq_range']
  · intro hpass
    rw [cage_optimizer_sequence,
      cage_steps_pass expected windows opts mol 0 hpass,
      List.range_eq_range']

theorem cage_sequence_window_gate_witness :
    cage_optimizer_sequence 4 cageWindowsEx cageOptsEx 0
      = (applyUpTo cageOptsEx 1 0, List.range 1) ∧
    cage_optimizer_sequence 4 cageWindowsAll cageOptsEx 0
      = (applyUpTo cageOptsEx cageOptsEx.length 0,
          List.range cageOptsEx.length) :=
  ⟨(cage_sequence_window_gate 4 cageWindowsEx cageOptsEx 0 1).1
      (by decide) (by decide) (by decide),
    (cage_sequence_window_gate 4 cageWindowsAll cageOptsEx 0 0).2
      (by decide)⟩

/- ================================================================
   Helper lemmas: the xTB retry loop.
   ================================================================ -/

lemma run_opt_from_succ (ch : Bool) (envs : Nat → XTBRunEnv)
    (run r : Nat) (st : XTBState) :
    run_optimizations_from ch envs run (r + 1) st =
      match is_complete ch (some (outFileName run)) (envs run) with
      | .error err => (.error err, { st with attempts := st.attempts + 1 })
      | .ok false =>
          if (envs run).coord_exists then
            run_optimizations_from ch envs (run + 1) r
              ⟨.fromFile (run + 1) "xtbhess.coord", st.incomplete,
                st.attempts + 1, st.warnings⟩
          else
            (.ok false,
              ⟨.fromFile (run + 1) "xtbopt.xyz", true,
                st.attempts + 1, st.warnings + 1⟩)
      | .ok true =>
          (.ok true,
            ⟨.fromFile (run + 1) "xtbopt.xyz", st.incomplete,
              st.attempts + 1, st.warnings⟩) := rfl

lemma run_opt_from_early_stop (ch : Bool) (envs : Nat → XTBRunEnv) :
    ∀ (j run remaining : Nat) (st : XTBState),
      j < remaining →
      (∀ i < j,
        is_complete ch (some (outFileName (run + i))) (envs (run + i))
            = .ok false ∧
          (envs (run + i)).coord_exists = true) →
      is_complete ch (some (outFileName (run + j))) (envs (run + j))
          = .ok false →
      (envs (run + j)).coord_exists = false →
      run_optimizations_from ch envs run remaining st =
        (.ok false,
          ⟨.fromFile (run + j + 1) "xtbopt.xyz", true,
            st.attempts + j + 1, st.warnings + 1⟩)
  | 0, run, remaining, st, hlt, _, hfail, hcoord => by
      cases remaining with
      | zero => exact absurd hlt (by omega)
      | succ r =>
          rw [run_opt_from_succ]
          have hf : is_complete ch (some (outFileName run)) (envs run)
              = .ok false := by simpa using hfail
          have hc : (envs run).coord_exists = false := by
            simpa using hcoord
          rw [hf]
          simp [hc]
  | j + 1, run, remaining, st, hlt, hpass, hfail, hcoord => by
      cases remaining with
      | zero => exact absurd hlt (by omega)
      | succ r =>
          have h0 := hpass 0 (Nat.succ_pos j)
          have h0a : is_complete ch (some (outFileName run)) (envs run)
              = .ok false := by simpa using h0.1
          have h0b : (envs run).coord_exists = true := by
            simpa using h0.2
          have hlt' : j < r := by omega
          have hpass' : ∀ i < j,
              is_complete ch (some (outFileName (run + 1 + i)))
                  (envs (run + 1 + i)) = .ok false ∧
                (envs (run + 1 + i)).coord_exists = true := by
            intro i hi
            have h := hpass (i + 1) (by omega)
            have e : run + (i + 1) = run + 1 + i := by omega
            rwa [e] at h
          have hfail' : is_complete ch (some (outFileName (run + 1 + j)))
              (envs (run + 1 + j)) = .ok false := by
            have e : run + (j + 1) = run + 1 + j := by omega
            rwa [e] at hfail
          have hcoord' : (envs (run + 1 + j)).coord_exists = false := by
            have e : run + (j + 1) = run + 1 + j := by omega
            rwa [e] at hcoord
          have ih := run_opt_from_early_stop ch envs j (run + 1) r
            ⟨.fromFile (run + 1) "xtbhess.coord", st.incomplete,
              st.attempts + 1, st.warnings⟩
            hlt' hpass' hfail' hcoord'
          rw [run_opt_from_succ, h0a]
          simp only [h0b, if_true]
          rw [ih]
          have e1 : run + 1 + j + 1 = run + (j + 1) + 1 := by omega
          have e2 : st.attempts + 1 + j + 1 = st.attempts + (j + 1) + 1 := by
            omega
          rw [e1, e2]

/-- C2: when the convergence check of attempt `k` fails and no
`xtbhess.coord` restart file exists (all earlier attempts having failed with
a restart file present), the molecule is updated from the attempt's
`xtbopt.xyz`, the molecule is put in the incomplete set, warnings are logged,
exactly `k + 1` attempts run (the loop stops early even when `k + 1` is
below `max_runs`), and the optimize call returns without raising. -/
theorem xtb_incomplete_no_restart_early_stop (ch : Bool)
    (envs : Nat → XTBRunEnv) (max_runs k : Nat)
    (initCwd outputDir : String) (st0 : XTBState)
    (hk : k < max_runs)
    (hpass : ∀ i < k,
      is_complete ch (some (outFileName i)) (envs i) = .ok false ∧
        (envs i).coord_exists = true)
    (hfail : is_complete ch (some (outFileName k)) (envs k) = .ok false)
    (hcoord : (envs k).coord_exists = false) :
    xtb_optimize ch envs max_runs initCwd outputDir st0 =
      ⟨.ok false,
        ⟨.fromFile (k + 1) "xtbopt.xyz", true,
          st0.attempts + k + 1, st0.warnings + 2⟩,
        initCwd, outputDir⟩ := by
  have hrun := run_opt_from_early_stop ch envs k 0 max_runs
    { st0 with incomplete := false } hk
    (fun i hi => by simpa using hpass i hi)
    (by simpa using hfail) (by simpa using hcoord)
  rw [Nat.zero_add] at hrun
  unfold xtb_optimize run_optimizations
  simp only [hrun]

theorem xtb_incomplete_no_restart_early_stop_witness :
    xtb_optimize true xtbEnvsEx 4 "/work" "/work/out" xtbStateEx =
      ⟨.ok false, ⟨.fromFile 2 "xtbopt.xyz", true, 2, 2⟩,
        "/work", "/work/out"⟩ :=
  xtb_incomplete_no_restart_early_stop true xtbEnvsEx 4 1 "/work"
    "/work/out" xtbStateEx (by decide) (by decide) (by decide) (by decide)

/-- C6: every `XTB._optimize` call runs the retry loop with the process-wide
working directory set to the per-call output directory, and the prior working
directory is restored on every exit path — success, incomplete optimization
and propagated error alike. -/
theorem xtb_optimize_restores_cwd (ch : Bool) (envs : Nat → XTBRunEnv)
    (max_runs : Nat) (initCwd outputDir : String) (st0 : XTBState) :
    (xtb_optimize ch envs max_runs initCwd outputDir st0).finalCwd
        = initCwd ∧
    (xtb_optimize ch envs max_runs initCwd outputDir st0).runCwd
        = outputDir := by
  unfold xtb_optimize
  rcases h : (run_optimizations ch envs max_runs
      { st0 with incomplete := false }).1 with e | b
  · simp [h]
  · cases b <;> simp [h]

/- ================================================================
   Helper lemmas: the EA generation loop.
   ================================================================ -/

lemma run_ea_loop_succ (launch : String) (g : EAOracles)
    (t : Nat → Bool) (fuel : Nat) (st : EAState) :
    run_ea_loop launch g t (fuel + 1) st =
      if t st.snapshots then { st with finished := true }
      else run_ea_loop launch g t fuel (ea_generation launch g st) :=
  rfl

lemma ea_generation_snapshots (launch : String) (g : EAOracles)
    (st : EAState) :
    (ea_generation launch g st).snapshots = st.snapshots + 1 := rfl

lemma ea_generation_crossoverCalls (launch : String) (g : EAOracles)
    (st : EAState) :
    (ea_generation launch g st).crossoverCalls
      = st.crossoverCalls + 1 := rfl

lemma ea_generation_mutationCalls (launch : String) (g : EAOracles)
    (st : EAState) :
    (ea_generation launch g st).mutationCalls
      = st.mutationCalls + 1 := rfl

lemma ea_generation_gensCompleted (launch : String) (g : EAOracles)
    (st : EAState) :
    (ea_generation launch g st).gensCompleted
      = st.gensCompleted + 1 := rfl

lemma ea_generation_finalizations (launch : String) (g : EAOracles)
    (st : EAState) :
    (ea_generation launch g st).finalizations
      = st.finalizations + 1 := rfl

lemma ea_generation_cwd (launch : String) (g : EAOracles)
    (st : EAState) :
    (ea_generation launch g st).cwd = launch := rfl

lemma run_ea_loop_final_eq_gens (launch : String) (g : EAOracles)
    (t : Nat → Bool) :
    ∀ (fuel : Nat) (st : EAState),
      st.finalizations = st.gensCompleted →
      (run_ea_loop launch g t fuel st).finalizations
        = (run_ea_loop launch g t fuel st).gensCompleted := by
  intro fuel
  induction fuel with
  | zero => intro st h; exact h
  | succ n ih =>
      intro st h
      rw [run_ea_loop_succ]
      by_cases ht : t st.snapshots = true
      · simp [ht, h]
      · rw [if_neg (by simpa using ht)]
        exact ih (ea_generation launch g st) (by
          rw [ea_generation_finalizations, ea_generation_gensCompleted, h])

lemma launch_ne_scratch (launch : String) :
    launch ≠ eaScratchDir launch := by
  intro h
  have hl := congrArg String.length h
  rw [eaScratchDir, String.length_append] at hl
  have h15 : ("/output/scratch" : String).length = 15 := rfl
  omega

/-- C4: a run over a 2-molecule population with a `NumGenerations(3)`-style
terminator records exactly 3 generation snapshots, invokes the
crossover and mutation phases exactly twice (in particular never a 4th
time), and exits through the terminator — crossover and mutation run only
while the termination predicate over the accumulated generation history is
false. -/
theorem run_ea_three_snapshots (launch : String) (g : EAOracles)
    (m1 m2 k : Nat) :
    (run_ea launch g (numGenerations 3) [m1, m2] (k + 3)).snapshots = 3 ∧
    (run_ea launch g (numGenerations 3) [m1, m2] (k + 3)).crossoverCalls
        = 2 ∧
    (run_ea launch g (numGenerations 3) [m1, m2] (k + 3)).mutationCalls
        = 2 ∧
    (run_ea launch g (numGenerations 3) [m1, m2] (k + 3)).finished
        = true := by
  have h : run_ea launch g (numGenerations 3) [m1, m2] (k + 3)
      = { ea_generation launch g (ea_generation launch g
            ⟨[m1, m2], eaScratchDir launch, 1, 0, 0, 0, 0, false⟩)
          with finished := true } := by
    unfold run_ea
    rw [show k + 3 = k + 2 + 1 by omega, run_ea_loop_succ,
      if_neg (by simp [numGenerations])]
    rw [show k + 2 = k + 1 + 1 by omega, run_ea_loop_succ,
      if_neg (by simp [numGenerations, ea_generation_snapshots])]
    rw [run_ea_loop_succ,
      if_pos (by simp [numGenerations, ea_generation_snapshots])]
  refine ⟨?_, ?_, ?_, ?_⟩ <;>
    simp [h, ea_generation_snapshots, ea_generation_crossoverCalls,
      ea_generation_mutationCalls]

/-- C8: the end-of-run finalization block sits inside the generation while
loop, so it runs exactly once per completed generation (never once-at-exit):
the finalization count always equals the completed-generation count, and
after the first generation completes the working directory is the launch
directory, not the scratch directory. -/
theorem run_ea_finalization_inside_loop (launch : String) (g : EAOracles)
    (t : Nat → Bool) (pop0 : List Nat) (fuel k : Nat) :
    (run_ea launch g t pop0 fuel).finalizations
        = (run_ea launch g t pop0 fuel).gensCompleted ∧
    (run_ea launch g (numGenerations 2) pop0 (k + 2)).gensCompleted = 1 ∧
    (run_ea launch g (numGenerations 2) pop0 (k + 2)).finalizations = 1 ∧
    (run_ea launch g (numGenerations 2) pop0 (k + 2)).cwd = launch ∧
    ((run_ea launch g (numGenerations 2) pop0 (k + 2)).cwd
        == eaScratchDir launch) = false := by
  have h2 : run_ea launch g (numGenerations 2) pop0 (k + 2)
      = { ea_generation launch g
            ⟨pop0, eaScratchDir launch, 1, 0, 0, 0, 0, false⟩
          with finished := true } := by
    unfold run_ea
    rw [show k + 2 = k + 1 + 1 by omega, run_ea_loop_succ,
      if_neg (by simp [numGenerations])]
    rw [run_ea_loop_succ,
      if_pos (by simp [numGenerations, ea_generation_snapshots])]
  refine ⟨?_, ?_, ?_, ?_, ?_⟩
  · exact run_ea_loop_final_eq_gens launch g t fuel
      ⟨pop0, eaScratchDir launch, 1, 0, 0, 0, 0, false⟩ rfl
  · simp [h2, ea_generation_gensCompleted]
  · simp [h2, ea_generation_finalizations]
  · simp [h2, ea_generation_cwd]
  · simp only [h2, ea_generation_cwd, beq_eq_false_iff_ne, ne_eq]
    exact launch_ne_scratch launch
